import Mathlib

/-!
Verification of the vote submission and duplicate-detection core of the
chili-voting repository (`src/lib/supabase.ts`: `ChiliDatabase.submitVote`,
`ChiliDatabase.validateVote`, `ChiliDatabase.updateChiliStats`, and
`AdminAuth.isAuthenticated`, together with the `voteSubmissionSchema`
rating bounds from the validation module).

Modelling conventions:
* Timestamps are integer milliseconds since the epoch (`Int`), matching
  `Date.now()` and the `created_at` comparison in the IP recency check.
* The persistence layer is modelled as an in-memory state: a list of stored
  votes plus a list of chili entries.  Each persistence call that the source
  wraps in try/catch can be made to fail through an explicit fault record;
  a failing lookup raises an exception, which the surrounding catch handles
  exactly as the source does.
* `average_rating` is stored in tenths (an `Int`): the source stores
  `Math.round(averageRating * 10) / 10`, i.e. the tenths value is
  `Math.round(10 * total / count)`; `Math.round x` is `⌊x + 1/2⌋` in exact
  arithmetic, here `Int.fdiv (20 * total + count) (2 * count)`.
* JavaScript truthiness of the optional string fields (`vote.deviceFingerprint`,
  `ipAddress`) is modelled by `isTruthy`: `undefined`/`null` and the empty
  string are falsy.
-/

/-- JavaScript truthiness of an optional string (`undefined`, `null` and `""`
are falsy). -/
def isTruthy : Option String → Bool
  | none => false
  | some s => s ≠ ""

/-- A stored row of the `votes` table. -/
structure Vote where
  chili_id : String
  session_id : String
  device_fingerprint : Option String
  ip_address : Option String
  overall_rating : Int
  taste_rating : Int
  presentation_rating : Int
  creativity_rating : Int
  spice_balance_rating : Int
  comments : Option String
  created_at : Int
  deriving Repr, DecidableEq

/-- A row of the `chili_entries` table (the fields the voting core touches). -/
structure ChiliEntry where
  id : String
  name : String
  contestant_name : String
  vote_count : Nat
  total_score : Int
  average_rating_tenths : Int
  deriving Repr, DecidableEq

/-- The relational store the voting core reads and writes. -/
structure DbState where
  votes : List Vote
  entries : List ChiliEntry
  deriving Repr, DecidableEq

/-- The submission shape crossing into `submitVote`
(`VoteSubmission & sessionId/deviceFingerprint/ipAddress`). -/
structure VoteSubmission where
  chiliId : String
  overallRating : Int
  taste : Int
  presentation : Int
  creativity : Int
  spiceBalance : Int
  comments : Option String
  sessionId : String
  deviceFingerprint : Option String
  ipAddress : Option String
  deriving Repr, DecidableEq

/-- Result of `validateVote`: `allowed` plus an optional human-readable
reason. -/
structure ValidationResult where
  allowed : Bool
  reason : Option String
  deriving Repr, DecidableEq

/-- Fault injection for the three read queries `validateVote` performs; a set
flag makes that lookup raise an infrastructure error when executed. -/
structure LookupFaults where
  sessionQueryFails : Bool
  fingerprintQueryFails : Bool
  ipQueryFails : Bool
  deriving Repr, DecidableEq

/-- No lookup fault. -/
def noLookupFaults : LookupFaults :=
  { sessionQueryFails := false, fingerprintQueryFails := false, ipQueryFails := false }

/-- Check 1 of `validateVote`: a stored vote with this `session_id` and this
`chili_id` exists. -/
def sessionHit (votes : List Vote) (chiliId sessionId : String) : Bool :=
  votes.any fun v => v.session_id == sessionId && v.chili_id == chiliId

/-- Check 2 of `validateVote`: a stored vote with this `device_fingerprint`
and this `chili_id` exists. -/
def fingerprintHit (votes : List Vote) (chiliId fp : String) : Bool :=
  votes.any fun v => v.device_fingerprint == some fp && v.chili_id == chiliId

/-- Check 3 of `validateVote`: a stored vote with this `ip_address` and this
`chili_id` exists whose `created_at` is at least `now - 5 minutes`
(`.gte('created_at', fiveMinutesAgo)`). -/
def recentIpHit (votes : List Vote) (now : Int) (chiliId ip : String) : Bool :=
  votes.any fun v =>
    v.ip_address == some ip && v.chili_id == chiliId &&
      decide (now - 5 * 60 * 1000 ≤ v.created_at)

/-- The body of `ChiliDatabase.validateVote` inside its try block: the three
checks run in order, short-circuiting on the first rejection; a lookup whose
fault flag is set raises (`Except.error`) at the point it is executed. -/
def validateVoteChecks (votes : List Vote) (now : Int) (f : LookupFaults)
    (chiliId sessionId deviceFingerprint : String) (ipAddress : Option String) :
    Except Unit ValidationResult :=
  if f.sessionQueryFails then .error () else
  if sessionHit votes chiliId sessionId then
    .ok { allowed := false, reason := some "You have already voted for this chili" } else
  if f.fingerprintQueryFails then .error () else
  if fingerprintHit votes chiliId deviceFingerprint then
    .ok { allowed := false, reason := some "This device has already voted for this chili" } else
  if isTruthy ipAddress then
    if f.ipQueryFails then .error () else
    if recentIpHit votes now chiliId (ipAddress.getD "") then
      .ok { allowed := false,
            reason := some "Multiple votes detected from this network. Please wait a few minutes." }
    else .ok { allowed := true, reason := none }
  else .ok { allowed := true, reason := none }

/-- `ChiliDatabase.validateVote`: the checks wrapped in try/catch; on an
infrastructure error the catch returns `allowed := true` (fail open). -/
def validateVote (votes : List Vote) (now : Int) (f : LookupFaults)
    (chiliId sessionId deviceFingerprint : String) (ipAddress : Option String) :
    ValidationResult :=
  match validateVoteChecks votes now f chiliId sessionId deviceFingerprint ipAddress with
  | .ok r => r
  | .error _ => { allowed := true, reason := none }

/-- Fault injection for the persistence writes and reads of `submitVote` and
`updateChiliStats`. -/
structure SubmitFaults where
  lookup : LookupFaults
  insertFails : Bool
  statsReadFails : Bool
  statsWriteFails : Bool
  deriving Repr, DecidableEq

/-- No persistence fault anywhere. -/
def noFaults : SubmitFaults :=
  { lookup := noLookupFaults, insertFails := false,
    statsReadFails := false, statsWriteFails := false }

/-- Outcome of `submitVote` as seen by the caller: normal return, or a thrown
error with its message. -/
inductive SubmitResult where
  | success : SubmitResult
  | failure : String → SubmitResult
  deriving Repr, DecidableEq

/-- The row inserted into `votes` by `submitVote` (falsy optional fields are
stored as `null`); `created_at` is set to the insertion time. -/
def mkVote (now : Int) (sub : VoteSubmission) : Vote :=
  { chili_id := sub.chiliId
    session_id := sub.sessionId
    device_fingerprint := if isTruthy sub.deviceFingerprint then sub.deviceFingerprint else none
    ip_address := if isTruthy sub.ipAddress then sub.ipAddress else none
    overall_rating := sub.overallRating
    taste_rating := sub.taste
    presentation_rating := sub.presentation
    creativity_rating := sub.creativity
    spice_balance_rating := sub.spiceBalance
    comments := if sub.comments == some "" then none else sub.comments
    created_at := now }

/-- The stored votes for one entry (`.eq('chili_id', chiliId)`). -/
def votesFor (votes : List Vote) (chiliId : String) : List Vote :=
  votes.filter fun v => v.chili_id == chiliId

/-- Sum of the `overall_rating` column, as in
`votes.reduce((sum, vote) => sum + vote.overall_rating, 0)`. -/
def totalOverall (vs : List Vote) : Int :=
  (vs.map (fun v => v.overall_rating)).foldl (· + ·) 0

/-- `Math.round(averageRating * 10)` in exact arithmetic, where
`averageRating = total / count`: `⌊10 * total / count + 1/2⌋`. -/
def roundTenths (total : Int) (count : Nat) : Int :=
  Int.fdiv (20 * total + count) (2 * count)

/-- `ChiliDatabase.updateChiliStats`: fetch the entry's votes (a failing fetch
raises and is caught: no write); when at least one vote exists, recompute
`vote_count`, `total_score` and `average_rating` from the full vote set and
write them back in a single update (a failing update is likewise caught); when
no vote exists, no write is performed.  Errors are swallowed: this function
never fails as seen by its caller. -/
def updateChiliStats (st : DbState) (f : SubmitFaults) (chiliId : String) : DbState :=
  if f.statsReadFails then st
  else if (votesFor st.votes chiliId).length > 0 then
    if f.statsWriteFails then st
    else
      { st with
        entries := st.entries.map fun e =>
          if e.id == chiliId then
            { e with
              vote_count := (votesFor st.votes chiliId).length
              total_score := totalOverall (votesFor st.votes chiliId)
              average_rating_tenths :=
                roundTenths (totalOverall (votesFor st.votes chiliId))
                  (votesFor st.votes chiliId).length }
          else e }
  else st

/-- `ChiliDatabase.submitVote`: admin bypass first; validation runs only when
the caller is not an admin AND the submission carries a truthy device
fingerprint; a disallowed validation throws its reason; then the vote row is
inserted (a failing insert throws, aborting with no further effect); then
`updateChiliStats` runs (and never throws). -/
def submitVote (st : DbState) (now : Int) (isAdmin : Bool) (f : SubmitFaults)
    (sub : VoteSubmission) : SubmitResult × DbState :=
  if !isAdmin && isTruthy sub.deviceFingerprint then
    let validation :=
      validateVote st.votes now f.lookup sub.chiliId sub.sessionId
        (sub.deviceFingerprint.getD "") sub.ipAddress
    if !validation.allowed then
      (.failure (validation.reason.getD "Duplicate vote detected"), st)
    else if f.insertFails then (.failure "Failed to submit vote", st)
    else
      let st1 : DbState := { st with votes := st.votes ++ [mkVote now sub] }
      (.success, updateChiliStats st1 f sub.chiliId)
  else if f.insertFails then (.failure "Failed to submit vote", st)
  else
    let st1 : DbState := { st with votes := st.votes ++ [mkVote now sub] }
    (.success, updateChiliStats st1 f sub.chiliId)

/-- A stored admin session (`AdminSession`), as parsed from client storage. -/
structure AdminSession where
  authenticated : Bool
  expires : Int
  deriving Repr, DecidableEq

/-- `AdminAuth.isAuthenticated`: false when no session is stored (or parsing
fails, folded into `none`); false when the session has expired
(`session.expires < Date.now()`); otherwise the stored `authenticated` flag. -/
def isAuthenticated (stored : Option AdminSession) (now : Int) : Bool :=
  match stored with
  | none => false
  | some session => if session.expires < now then false else session.authenticated

/-- The rating-bounds part of `voteSubmissionSchema`: every one of the five
ratings must lie in the closed range 1..5 (the schema's `.int()` constraint is
intrinsic to the `Int` representation). -/
def voteSubmissionRatingsValid (sub : VoteSubmission) : Bool :=
  (1 ≤ sub.overallRating && sub.overallRating ≤ 5) &&
  (1 ≤ sub.taste && sub.taste ≤ 5) &&
  (1 ≤ sub.presentation && sub.presentation ≤ 5) &&
  (1 ≤ sub.creativity && sub.creativity ≤ 5) &&
  (1 ≤ sub.spiceBalance && sub.spiceBalance ≤ 5)

/-- Look an entry up by id. -/
def getEntry (st : DbState) (chiliId : String) : Option ChiliEntry :=
  st.entries.find? fun e => e.id == chiliId

/-- Run a list of submissions through `submitVote` in order, collecting the
per-submission results. -/
def submitAll (now : Int) (isAdmin : Bool) (f : SubmitFaults) :
    DbState → List VoteSubmission → DbState × List SubmitResult
  | st, [] => (st, [])
  | st, sub :: rest =>
    let step := submitVote st now isAdmin f sub
    let tail := submitAll now isAdmin f step.2 rest
    (tail.1, step.1 :: tail.2)

/-- The spec's §4.2 rule chain, written from its wording: reject at the first
failing check (session, then fingerprint, then — only when an IP address was
supplied — IP recency within 5 minutes), otherwise accept; no weights or
scores. -/
def validatorChainSpec (votes : List Vote) (now : Int)
    (chiliId sessionId deviceFingerprint : String) (ipAddress : Option String) :
    ValidationResult :=
  if votes.any (fun v => v.chili_id == chiliId && v.session_id == sessionId) then
    { allowed := false, reason := some "You have already voted for this chili" }
  else if votes.any
      (fun v => v.chili_id == chiliId && v.device_fingerprint == some deviceFingerprint) then
    { allowed := false, reason := some "This device has already voted for this chili" }
  else if isTruthy ipAddress &&
      votes.any (fun v => v.chili_id == chiliId && v.ip_address == some (ipAddress.getD "") &&
        decide (now - 5 * 60 * 1000 ≤ v.created_at)) then
    { allowed := false,
      reason := some "Multiple votes detected from this network. Please wait a few minutes." }
  else { allowed := true, reason := none }

/-- The entry `e` with its three aggregate fields recomputed from the vote
list `vs`, as written back by `updateChiliStats`. -/
def entryWithStats (e : ChiliEntry) (vs : List Vote) : ChiliEntry :=
  { e with
    vote_count := vs.length
    total_score := totalOverall vs
    average_rating_tenths := roundTenths (totalOverall vs) vs.length }

/-- A sample entry used in concrete runs. -/
def sampleEntry : ChiliEntry :=
  { id := "e1", name := "Texas Red", contestant_name := "Casey",
    vote_count := 0, total_score := 0, average_rating_tenths := 0 }

/-- A second sample entry. -/
def sampleEntry2 : ChiliEntry :=
  { id := "e2", name := "Green Inferno", contestant_name := "Joe",
    vote_count := 0, total_score := 0, average_rating_tenths := 0 }

/-- A stored vote for `e1` from session `s1`, fingerprint `f1`. -/
def sampleStoredVote : Vote :=
  { chili_id := "e1", session_id := "s1", device_fingerprint := some "f1",
    ip_address := some "10.0.0.1", overall_rating := 5, taste_rating := 5,
    presentation_rating := 4, creativity_rating := 4, spice_balance_rating := 5,
    comments := none, created_at := 0 }

/-- A database holding `sampleEntry` and `sampleEntry2` with one stored vote
for `e1`. -/
def sampleState : DbState :=
  { votes := [sampleStoredVote], entries := [sampleEntry, sampleEntry2] }

/-- A database holding the two sample entries and no votes at all. -/
def emptyState : DbState :=
  { votes := [], entries := [sampleEntry, sampleEntry2] }

/-- A submission for `e1` that reuses session `s1` but carries no device
fingerprint. -/
def noFingerprintSub : VoteSubmission :=
  { chiliId := "e1", overallRating := 4, taste := 4, presentation := 4,
    creativity := 4, spiceBalance := 4, comments := none,
    sessionId := "s1", deviceFingerprint := none, ipAddress := none }

/-- A submission for `e1` whose overall rating 7 violates the schema bounds,
from a completely fresh identity. -/
def outOfRangeSub : VoteSubmission :=
  { chiliId := "e1", overallRating := 7, taste := 3, presentation := 3,
    creativity := 3, spiceBalance := 3, comments := none,
    sessionId := "s9", deviceFingerprint := some "f9", ipAddress := some "9.9.9.9" }

/-- A fresh-identity submission for `e1` with overall rating 5. -/
def freshSub1 : VoteSubmission :=
  { chiliId := "e1", overallRating := 5, taste := 5, presentation := 5,
    creativity := 5, spiceBalance := 5, comments := none,
    sessionId := "sA", deviceFingerprint := none, ipAddress := none }

/-- A second fresh-identity submission for `e1` with overall rating 4. -/
def freshSub2 : VoteSubmission :=
  { chiliId := "e1", overallRating := 4, taste := 4, presentation := 4,
    creativity := 4, spiceBalance := 4, comments := none,
    sessionId := "sB", deviceFingerprint := none, ipAddress := none }

lemma any_congr_fun (l : List Vote) (p q : Vote → Bool) (h : ∀ v, p v = q v) :
    l.any p = l.any q := by
  induction l with
  | nil => rfl
  | cons x xs ih => simp [List.any_cons, ih, h]

lemma sessionHit_eq_specForm (votes : List Vote) (chiliId sessionId : String) :
    sessionHit votes chiliId sessionId =
      votes.any (fun v => v.chili_id == chiliId && v.session_id == sessionId) := by
  apply any_congr_fun
  intro v
  rw [Bool.and_comm]

lemma fingerprintHit_eq_specForm (votes : List Vote) (chiliId fp : String) :
    fingerprintHit votes chiliId fp =
      votes.any (fun v => v.chili_id == chiliId && v.device_fingerprint == some fp) := by
  apply any_congr_fun
  intro v
  rw [Bool.and_comm]

lemma recentIpHit_eq_specForm (votes : List Vote) (now : Int) (chiliId ip : String) :
    recentIpHit votes now chiliId ip =
      votes.any (fun v => v.chili_id == chiliId && v.ip_address == some ip &&
        decide (now - 5 * 60 * 1000 ≤ v.created_at)) := by
  apply any_congr_fun
  intro v
  rw [Bool.and_comm (v.ip_address == some ip)]

/-- C1: `validateVote`, in the absence of infrastructure faults, is exactly
the ordered, short-circuiting chain of the spec: session check first, then
fingerprint check, then — only when an IP address was supplied — the
5-minute IP recency check; the first failing check alone decides the
rejection and its reason, and nothing is combined with weights or scores. -/
theorem validateVote_matches_ordered_chain (votes : List Vote) (now : Int)
    (chiliId sessionId deviceFingerprint : String) (ipAddress : Option String) :
    validateVote votes now noLookupFaults chiliId sessionId deviceFingerprint ipAddress =
      validatorChainSpec votes now chiliId sessionId deviceFingerprint ipAddress := by
  unfold validateVote validateVoteChecks validatorChainSpec noLookupFaults
  rw [← sessionHit_eq_specForm, ← fingerprintHit_eq_specForm, ← recentIpHit_eq_specForm]
  cases hA : sessionHit votes chiliId sessionId
  · cases hB : fingerprintHit votes chiliId deviceFingerprint
    · cases hC : isTruthy ipAddress
      · simp [hA, hB, hC]
      · cases hD : recentIpHit votes now chiliId (ipAddress.getD "") <;> simp [hA, hB, hC, hD]
    · simp [hA, hB]
  · simp [hA]

/-- C4: whenever a lookup that `validateVote` actually performs fails (the
session lookup; the fingerprint lookup, reached only when the session check
did not already reject; or the IP lookup, reached only when an IP address was
supplied and neither earlier check rejected), `validateVote` returns
`allowed := true` — it fails open. -/
theorem validateVote_fails_open_on_lookup_error (votes : List Vote) (now : Int)
    (f : LookupFaults) (chiliId sessionId deviceFingerprint : String)
    (ipAddress : Option String)
    (h : f.sessionQueryFails = true ∨
      (sessionHit votes chiliId sessionId = false ∧ f.fingerprintQueryFails = true) ∨
      (sessionHit votes chiliId sessionId = false ∧
        fingerprintHit votes chiliId deviceFingerprint = false ∧
        isTruthy ipAddress = true ∧ f.ipQueryFails = true)) :
    validateVote votes now f chiliId sessionId deviceFingerprint ipAddress =
      { allowed := true, reason := none } := by
  unfold validateVote validateVoteChecks
  rcases h with h1 | ⟨h1, h2⟩ | ⟨h1, h2, h3, h4⟩
  · simp [h1]
  · simp [h1, h2]
  · simp [h1, h2, h3, h4]

/-- Witness for C4: with one stored vote present, no duplicate hit, an IP
supplied, and the IP lookup failing, the vote is allowed. -/
theorem validateVote_fails_open_on_lookup_error_witness :
    validateVote sampleState.votes 0
      { sessionQueryFails := false, fingerprintQueryFails := false, ipQueryFails := true }
      "e1" "s2" "f2" (some "10.0.0.1") =
      { allowed := true, reason := none } :=
  validateVote_fails_open_on_lookup_error sampleState.votes 0
    { sessionQueryFails := false, fingerprintQueryFails := false, ipQueryFails := true }
    "e1" "s2" "f2" (some "10.0.0.1")
    (Or.inr (Or.inr ⟨by decide, by decide, by decide, by decide⟩))

lemma sessionHit_cons_ne (v : Vote) (votes : List Vote) (chiliId sessionId : String)
    (h : v.chili_id ≠ chiliId) :
    sessionHit (v :: votes) chiliId sessionId = sessionHit votes chiliId sessionId := by
  simp [sessionHit, List.any_cons, h]

lemma fingerprintHit_cons_ne (v : Vote) (votes : List Vote) (chiliId fp : String)
    (h : v.chili_id ≠ chiliId) :
    fingerprintHit (v :: votes) chiliId fp = fingerprintHit votes chiliId fp := by
  simp [fingerprintHit, List.any_cons, h]

lemma recentIpHit_cons_ne (v : Vote) (votes : List Vote) (now : Int) (chiliId ip : String)
    (h : v.chili_id ≠ chiliId) :
    recentIpHit (v :: votes) now chiliId ip = recentIpHit votes now chiliId ip := by
  simp [recentIpHit, List.any_cons, h]

/-- C9: a stored vote for a different entry never influences validation — all
three checks filter by the target entry's id, so prepending a vote whose
`chili_id` differs from the validated entry leaves `validateVote` unchanged;
in particular a vote for entry E1 never causes a rejection for entry E2. -/
theorem foreign_entry_vote_never_blocks (v : Vote) (votes : List Vote) (now : Int)
    (f : LookupFaults) (chiliId sessionId deviceFingerprint : String)
    (ipAddress : Option String) (h : v.chili_id ≠ chiliId) :
    validateVote (v :: votes) now f chiliId sessionId deviceFingerprint ipAddress =
      validateVote votes now f chiliId sessionId deviceFingerprint ipAddress := by
  unfold validateVote validateVoteChecks
  rw [sessionHit_cons_ne v votes chiliId sessionId h,
    fingerprintHit_cons_ne v votes chiliId deviceFingerprint h,
    recentIpHit_cons_ne v votes now chiliId (ipAddress.getD "") h]

/-- Witness for C9: the stored vote for `e1` (same session, fingerprint and
IP) does not change validation for `e2`, which accepts. -/
theorem foreign_entry_vote_never_blocks_witness :
    validateVote (sampleStoredVote :: []) 0 noLookupFaults "e2" "s1" "f1" (some "10.0.0.1") =
      validateVote [] 0 noLookupFaults "e2" "s1" "f1" (some "10.0.0.1") ∧
    validateVote (sampleStoredVote :: []) 0 noLookupFaults "e2" "s1" "f1" (some "10.0.0.1") =
      { allowed := true, reason := none } :=
  ⟨foreign_entry_vote_never_blocks sampleStoredVote [] 0 noLookupFaults
    "e2" "s1" "f1" (some "10.0.0.1") (by decide), by decide⟩

/-- C10: when an entry has no stored votes, `updateChiliStats` performs no
write at all — the database state (in particular the entry's `vote_count`,
`total_score` and `average_rating`) is returned exactly as it was, not reset
to zero. -/
theorem updateChiliStats_no_write_when_no_votes (st : DbState) (f : SubmitFaults)
    (chiliId : String) (h : votesFor st.votes chiliId = []) :
    updateChiliStats st f chiliId = st := by
  unfold updateChiliStats
  rw [h]
  simp

/-- Witness for C10: recomputing stats for `e2`, which has no votes while a
vote for `e1` exists, leaves the state untouched (and `e2` keeps its fields
rather than being reset). -/
theorem updateChiliStats_no_write_when_no_votes_witness :
    votesFor sampleState.votes "e2" = [] ∧
    updateChiliStats sampleState noFaults "e2" = sampleState :=
  ⟨by decide, updateChiliStats_no_write_when_no_votes sampleState noFaults "e2" (by decide)⟩

/-- C5: when the vote-row insert fails, `submitVote` fails as a whole and the
database state is returned untouched: no vote is stored, `updateChiliStats`
has no observable effect, and the entry's aggregates are unchanged. -/
theorem insert_failure_aborts_without_stats_update (st : DbState) (now : Int)
    (isAdmin : Bool) (f : SubmitFaults) (sub : VoteSubmission)
    (h : f.insertFails = true) :
    (submitVote st now isAdmin f sub).1 ≠ SubmitResult.success ∧
    (submitVote st now isAdmin f sub).2 = st := by
  unfold submitVote
  cases hg : (!isAdmin && isTruthy sub.deviceFingerprint)
  · simp [h]
  · cases ha : (validateVote st.votes now f.lookup sub.chiliId sub.sessionId
      (sub.deviceFingerprint.getD "") sub.ipAddress).allowed
    · simp [hg, ha]
    · simp [hg, ha, h]

/-- Witness for C5: a fresh, otherwise-valid submission with a failing insert
yields a failure and leaves the sample state unchanged. -/
theorem insert_failure_aborts_without_stats_update_witness :
    (submitVote sampleState 0 false
      { noFaults with insertFails := true } freshSub1).1 ≠ SubmitResult.success ∧
    (submitVote sampleState 0 false
      { noFaults with insertFails := true } freshSub1).2 = sampleState :=
  insert_failure_aborts_without_stats_update sampleState 0 false
    { noFaults with insertFails := true } freshSub1 (by decide)

/-- C6: once the insert has succeeded, `submitVote` completes successfully no
matter what happens during the statistics recompute: for any stats-phase
faults, the result is `success` and the final state is exactly the inserted
vote followed by the (error-swallowing) `updateChiliStats` pass. -/
theorem stats_failure_not_propagated (st : DbState) (now : Int) (isAdmin : Bool)
    (f : SubmitFaults) (sub : VoteSubmission)
    (hins : f.insertFails = false)
    (hok : isAdmin = true ∨ isTruthy sub.deviceFingerprint = false ∨
      (validateVote st.votes now f.lookup sub.chiliId sub.sessionId
        (sub.deviceFingerprint.getD "") sub.ipAddress).allowed = true) :
    submitVote st now isAdmin f sub =
      (SubmitResult.success,
        updateChiliStats { st with votes := st.votes ++ [mkVote now sub] } f sub.chiliId) := by
  unfold submitVote
  rcases hok with h1 | h1 | h1
  · simp [h1, hins]
  · simp [h1, hins]
  · cases hg : (!isAdmin && isTruthy sub.deviceFingerprint) <;> simp [hg, h1, hins]

/-- Witness for C6: with both stats-phase faults injected, a fresh non-admin
submission still returns `success`, and (the stats read having failed) the
aggregates simply lag: only the vote row was added. -/
theorem stats_failure_not_propagated_witness :
    submitVote emptyState 0 false
      { noFaults with statsReadFails := true, statsWriteFails := true } freshSub1 =
      (SubmitResult.success,
        updateChiliStats { emptyState with votes := emptyState.votes ++ [mkVote 0 freshSub1] }
          { noFaults with statsReadFails := true, statsWriteFails := true }
          freshSub1.chiliId) :=
  stats_failure_not_propagated emptyState 0 false
    { noFaults with statsReadFails := true, statsWriteFails := true } freshSub1
    (by decide) (Or.inr (Or.inl (by decide)))

/-- Counterexample to C2 as stated: with one stored vote for `e1` carrying
session `s1`, a second non-admin submission for `e1` with the same session
`s1` but no device fingerprint is NOT rejected at the session check — it
succeeds and a second vote row is inserted, because `submitVote` runs the
Validator only when a truthy fingerprint is present. -/
theorem missing_fingerprint_skips_session_check_cex :
    sessionHit sampleState.votes "e1" "s1" = true ∧
    (submitVote sampleState 1000 false noFaults noFingerprintSub).1 = SubmitResult.success ∧
    (submitVote sampleState 1000 false noFaults noFingerprintSub).2.votes =
      [sampleStoredVote, mkVote 1000 noFingerprintSub] := by
  constructor
  · decide
  · constructor <;> decide

/-- C2 amended: for every non-admin submission whose `deviceFingerprint` is
missing (or empty, hence falsy), `submitVote` skips the Validator entirely —
no session, fingerprint, or IP check runs — so whenever the insert succeeds
the submission is accepted and stored regardless of any matching stored
votes; in particular a duplicate `sessionId` is not rejected. -/
theorem submitVote_skips_validator_without_fingerprint (st : DbState) (now : Int)
    (f : SubmitFaults) (sub : VoteSubmission)
    (hfp : isTruthy sub.deviceFingerprint = false)
    (hins : f.insertFails = false) :
    submitVote st now false f sub =
      (SubmitResult.success,
        updateChiliStats { st with votes := st.votes ++ [mkVote now sub] } f sub.chiliId) := by
  unfold submitVote
  simp [hfp, hins]

/-- Witness for the amended C2: the duplicate-session, no-fingerprint
submission is accepted and inserted. -/
theorem submitVote_skips_validator_without_fingerprint_witness :
    submitVote sampleState 1000 false noFaults noFingerprintSub =
      (SubmitResult.success,
        updateChiliStats
          { sampleState with votes := sampleState.votes ++ [mkVote 1000 noFingerprintSub] }
          noFaults noFingerprintSub.chiliId) :=
  submitVote_skips_validator_without_fingerprint sampleState 1000 noFaults
    noFingerprintSub (by decide) (by decide)

lemma updateChiliStats_votes (st : DbState) (f : SubmitFaults) (c : String) :
    (updateChiliStats st f c).votes = st.votes := by
  unfold updateChiliStats
  repeat' split
  all_goals rfl

lemma getEntry_set_votes (st : DbState) (vs : List Vote) (c : String) :
    getEntry { st with votes := vs } c = getEntry st c := rfl

lemma votesFor_append_match (votes : List Vote) (v : Vote) (c : String)
    (h : v.chili_id = c) :
    votesFor (votes ++ [v]) c = votesFor votes c ++ [v] := by
  simp [votesFor, List.filter_append, h]

lemma find?_map_stats_update (l : List ChiliEntry) (chiliId : String)
    (count : Nat) (total avg : Int) :
    ((l.map fun e => if e.id == chiliId then
        { e with vote_count := count, total_score := total, average_rating_tenths := avg }
      else e).find? fun e => e.id == chiliId) =
      (l.find? fun e => e.id == chiliId).map fun e =>
        { e with vote_count := count, total_score := total, average_rating_tenths := avg } := by
  induction l with
  | nil => rfl
  | cons x xs ih =>
    by_cases hx : x.id = chiliId
    · rw [List.map_cons, if_pos (by simp [hx]),
        List.find?_cons_of_pos _ (by simp [hx]),
        List.find?_cons_of_pos _ (by simp [hx])]
      rfl
    · rw [List.map_cons, if_neg (by simp [hx]),
        List.find?_cons_of_neg _ (by simp [hx]),
        List.find?_cons_of_neg _ (by simp [hx]), ih]

lemma updateChiliStats_getEntry (st : DbState) (c : String)
    (h : votesFor st.votes c ≠ []) :
    getEntry (updateChiliStats st noFaults c) c =
      (getEntry st c).map fun e => entryWithStats e (votesFor st.votes c) := by
  have hlen : 0 < (votesFor st.votes c).length := List.length_pos.mpr h
  unfold updateChiliStats noFaults
  simp only [hlen, if_true, if_false, Bool.false_eq_true, entryWithStats]
  exact find?_map_stats_update st.entries c _ _ _

lemma submitVote_success_state (st : DbState) (now : Int) (isAdmin : Bool)
    (sub : VoteSubmission)
    (h : (submitVote st now isAdmin noFaults sub).1 = SubmitResult.success) :
    (submitVote st now isAdmin noFaults sub).2 =
      updateChiliStats { st with votes := st.votes ++ [mkVote now sub] } noFaults
        sub.chiliId := by
  unfold submitVote at h ⊢
  cases hg : (!isAdmin && isTruthy sub.deviceFingerprint)
  · simp [hg, noFaults]
  · cases ha : (validateVote st.votes now noFaults.lookup sub.chiliId sub.sessionId
      (sub.deviceFingerprint.getD "") sub.ipAddress).allowed
    · rw [hg] at h
      simp [ha] at h
    · have ha' : (validateVote st.votes now noLookupFaults sub.chiliId sub.sessionId
          (sub.deviceFingerprint.getD "") sub.ipAddress).allowed = true := by
        simpa [noFaults] using ha
      simp [hg, noFaults, ha']

lemma submitAll_cons (now : Int) (isAdmin : Bool) (f : SubmitFaults) (st : DbState)
    (sub : VoteSubmission) (rest : List VoteSubmission) :
    submitAll now isAdmin f st (sub :: rest) =
      ((submitAll now isAdmin f (submitVote st now isAdmin f sub).2 rest).1,
        (submitVote st now isAdmin f sub).1 ::
          (submitAll now isAdmin f (submitVote st now isAdmin f sub).2 rest).2) := rfl

lemma entryWithStats_absorb (e : ChiliEntry) (a b : List Vote) :
    entryWithStats (entryWithStats e a) b = entryWithStats e b := rfl

lemma mkVote_chili_id (now : Int) (sub : VoteSubmission) :
    (mkVote now sub).chili_id = sub.chiliId := rfl

lemma submitAll_aggregates (now : Int) (isAdmin : Bool) (E : String) :
    ∀ (subs : List VoteSubmission) (st : DbState) (e : ChiliEntry),
      (∀ r ∈ (submitAll now isAdmin noFaults st subs).2, r = SubmitResult.success) →
      (∀ sub ∈ subs, sub.chiliId = E) →
      subs ≠ [] →
      getEntry st E = some e →
      getEntry (submitAll now isAdmin noFaults st subs).1 E =
        some (entryWithStats e (votesFor st.votes E ++ subs.map (mkVote now))) := by
  intro subs
  induction subs with
  | nil => intro st e _ _ hne _; exact absurd rfl hne
  | cons sub rest ih =>
    intro st e hsucc hE hne hentry
    rw [submitAll_cons] at hsucc ⊢
    have hs1 : (submitVote st now isAdmin noFaults sub).1 = SubmitResult.success :=
      hsucc _ (List.mem_cons_self _ _)
    have hEsub : sub.chiliId = E := hE sub (List.mem_cons_self _ _)
    have hstate := submitVote_success_state st now isAdmin sub hs1
    have hvotes : (submitVote st now isAdmin noFaults sub).2.votes =
        st.votes ++ [mkVote now sub] := by
      rw [hstate, updateChiliStats_votes]
    have hvf : votesFor (submitVote st now isAdmin noFaults sub).2.votes E =
        votesFor st.votes E ++ [mkVote now sub] := by
      rw [hvotes, votesFor_append_match]
      rw [mkVote_chili_id, hEsub]
    have hgete : getEntry (submitVote st now isAdmin noFaults sub).2 E =
        some (entryWithStats e (votesFor st.votes E ++ [mkVote now sub])) := by
      rw [hstate, hEsub, updateChiliStats_getEntry]
      · rw [getEntry_set_votes, hentry]
        show some (entryWithStats e (votesFor (st.votes ++ [mkVote now sub]) E)) = _
        rw [votesFor_append_match st.votes (mkVote now sub) E (by rw [mkVote_chili_id, hEsub])]
      · rw [votesFor_append_match st.votes (mkVote now sub) E (by rw [mkVote_chili_id, hEsub])]
        exact List.append_ne_nil_of_right_ne_nil _ (by simp)
    by_cases hrest : rest = []
    · subst hrest
      show getEntry (submitVote st now isAdmin noFaults sub).2 E = _
      rw [hgete]
      rfl
    · have hsucc' : ∀ r ∈ (submitAll now isAdmin noFaults
          (submitVote st now isAdmin noFaults sub).2 rest).2, r = SubmitResult.success :=
        fun r hr => hsucc r (List.mem_cons_of_mem _ hr)
      have hE' : ∀ s ∈ rest, s.chiliId = E := fun s hs => hE s (List.mem_cons_of_mem _ hs)
      have := ih (submitVote st now isAdmin noFaults sub).2
        (entryWithStats e (votesFor st.votes E ++ [mkVote now sub])) hsucc' hE' hrest hgete
      rw [hvf, entryWithStats_absorb, List.append_assoc] at this
      exact this

/-- C3: after any sequence of accepted submissions with overall ratings
r1..rN for an entry that starts with no votes, the entry's aggregates are
recomputed from the full stored vote set: `vote_count = N`,
`total_score = r1 + ... + rN`, and the average-rating tenths equal
`Math.round(10 * total / N)` — one-decimal standard rounding of the mean. -/
theorem aggregates_after_accepted_votes (st0 : DbState) (now : Int) (E : String)
    (subs : List VoteSubmission) (e0 : ChiliEntry)
    (hacc : ∀ r ∈ (submitAll now false noFaults st0 subs).2, r = SubmitResult.success)
    (hE : ∀ sub ∈ subs, sub.chiliId = E)
    (hne : subs ≠ [])
    (hfresh : votesFor st0.votes E = [])
    (hentry : getEntry st0 E = some e0) :
    ∃ e, getEntry (submitAll now false noFaults st0 subs).1 E = some e ∧
      e.vote_count = subs.length ∧
      e.total_score = (subs.map fun s => s.overallRating).foldl (· + ·) 0 ∧
      e.average_rating_tenths =
        roundTenths ((subs.map fun s => s.overallRating).foldl (· + ·) 0) subs.length := by
  refine ⟨entryWithStats e0 (subs.map (mkVote now)), ?_, ?_, ?_, ?_⟩
  · have := submitAll_aggregates now false E subs st0 e0 hacc hE hne hentry
    rw [hfresh] at this
    simpa using this
  · simp [entryWithStats]
  · simp only [entryWithStats, totalOverall, List.map_map]
    rfl
  · simp only [entryWithStats, totalOverall, List.map_map, List.length_map]
    rfl

/-- Witness for C3: two accepted fresh-identity votes (ratings 5 and 4) for
`e1` yield `vote_count = 2`, `total_score = 9` and an average of 4.5 (45
tenths). -/
theorem aggregates_after_accepted_votes_witness :
    ∃ e, getEntry (submitAll 0 false noFaults emptyState [freshSub1, freshSub2]).1 "e1" =
        some e ∧
      e.vote_count = [freshSub1, freshSub2].length ∧
      e.total_score = ([freshSub1, freshSub2].map fun s => s.overallRating).foldl (· + ·) 0 ∧
      e.average_rating_tenths =
        roundTenths (([freshSub1, freshSub2].map fun s => s.overallRating).foldl (· + ·) 0)
          [freshSub1, freshSub2].length :=
  aggregates_after_accepted_votes emptyState 0 "e1" [freshSub1, freshSub2] sampleEntry
    (by decide) (by decide) (by decide) (by decide) (by decide)

lemma submitVote_admin_success (st : DbState) (now : Int) (f : SubmitFaults)
    (sub : VoteSubmission) (hins : f.insertFails = false) :
    (submitVote st now true f sub).1 = SubmitResult.success := by
  unfold submitVote
  simp [hins]

lemma submitAll_admin_success (now : Int) (f : SubmitFaults)
    (hins : f.insertFails = false) :
    ∀ (subs : List VoteSubmission) (st : DbState),
      ∀ r ∈ (submitAll now true f st subs).2, r = SubmitResult.success := by
  intro subs
  induction subs with
  | nil => intro st r hr; simp [submitAll] at hr
  | cons sub rest ih =>
    intro st r hr
    rw [submitAll_cons] at hr
    rcases List.mem_cons.mp hr with h | h
    · rw [h]
      exact submitVote_admin_success st now f sub hins
    · exact ih _ r h

lemma foldl_add_replicate (n : Nat) (x : Int) :
    ∀ a : Int, (List.replicate n x).foldl (· + ·) a = a + n * x := by
  induction n with
  | zero => intro a; simp
  | succ m ih =>
    intro a
    rw [List.replicate_succ, List.foldl_cons, ih]
    push_cast
    ring

lemma totalOverall_replicate (n : Nat) (v : Vote) :
    totalOverall (List.replicate n v) = n * v.overall_rating := by
  unfold totalOverall
  rw [List.map_replicate, foldl_add_replicate]
  ring

/-- C7: when `isAuthenticated` returns true at submission time, `submitVote`
skips the Validator entirely, so N > 0 repeated submissions of the same vote
(same entry and identity bundle) by that admin all succeed — zero rejections
— and each is reflected in the aggregates: `vote_count = N`,
`total_score = N * rating`, and the tenths average is the standard one-decimal
rounding of the mean. -/
theorem admin_bypass_allows_repeated_votes (st0 : DbState) (now : Int) (E : String)
    (sub : VoteSubmission) (e0 : ChiliEntry) (N : Nat)
    (stored : Option AdminSession)
    (hauth : isAuthenticated stored now = true)
    (hE : sub.chiliId = E)
    (hfresh : votesFor st0.votes E = [])
    (hentry : getEntry st0 E = some e0)
    (hN : N ≠ 0) :
    (∀ r ∈ (submitAll now (isAuthenticated stored now) noFaults st0
        (List.replicate N sub)).2, r = SubmitResult.success) ∧
    ∃ e, getEntry (submitAll now (isAuthenticated stored now) noFaults st0
        (List.replicate N sub)).1 E = some e ∧
      e.vote_count = N ∧
      e.total_score = (N : Int) * sub.overallRating ∧
      e.average_rating_tenths = roundTenths ((N : Int) * sub.overallRating) N := by
  rw [hauth]
  have hsucc := fun r hr =>
    submitAll_admin_success now noFaults rfl (List.replicate N sub) st0 r hr
  refine ⟨hsucc, entryWithStats e0 ((List.replicate N sub).map (mkVote now)), ?_, ?_, ?_, ?_⟩
  · have := submitAll_aggregates now true E (List.replicate N sub) st0 e0 hsucc
      (fun s hs => by rw [List.eq_of_mem_replicate hs, hE])
      (by simpa using hN) hentry
    rw [hfresh] at this
    simpa using this
  · simp [entryWithStats]
  · simp [entryWithStats, List.map_replicate, totalOverall_replicate, mkVote]
  · simp [entryWithStats, List.map_replicate, totalOverall_replicate, mkVote]

/-- Witness for C7: an authenticated admin session (created at time 0,
checked at time 0, expiring at 1) submits the same vote twice; both succeed
and the aggregates show 2 votes totalling 10, average 5.0. -/
theorem admin_bypass_allows_repeated_votes_witness :
    (∀ r ∈ (submitAll 0 (isAuthenticated (some { authenticated := true, expires := 1 }) 0)
        noFaults emptyState (List.replicate 2 freshSub1)).2, r = SubmitResult.success) ∧
    ∃ e, getEntry (submitAll 0 (isAuthenticated (some { authenticated := true, expires := 1 }) 0)
        noFaults emptyState (List.replicate 2 freshSub1)).1 "e1" = some e ∧
      e.vote_count = 2 ∧
      e.total_score = (2 : Int) * freshSub1.overallRating ∧
      e.average_rating_tenths = roundTenths ((2 : Int) * freshSub1.overallRating) 2 :=
  admin_bypass_allows_repeated_votes emptyState 0 "e1" freshSub1 sampleEntry 2
    (some { authenticated := true, expires := 1 })
    (by decide) (by decide) (by decide) (by decide) (by decide)

/-- C8 failing input: a fresh-identity submission whose overall rating is 7,
outside the 1..5 bounds that the repository's own `voteSubmissionSchema`
declares.  No vote-submission path ever invokes that schema: `submitVote`
performs no rating validation, so the submission proceeds straight through
the duplicate checks (its truthy fingerprint makes the Validator run), is
accepted, is inserted with `overall_rating = 7`, and is folded into the
entry's aggregates (`total_score = 7`, average 7.0). -/
theorem out_of_range_rating_reaches_insert :
    voteSubmissionRatingsValid outOfRangeSub = false ∧
    (submitVote emptyState 0 false noFaults outOfRangeSub).1 = SubmitResult.success ∧
    (submitVote emptyState 0 false noFaults outOfRangeSub).2.votes =
      [mkVote 0 outOfRangeSub] ∧
    (mkVote 0 outOfRangeSub).overall_rating = 7 ∧
    getEntry (submitVote emptyState 0 false noFaults outOfRangeSub).2 "e1" =
      some { sampleEntry with vote_count := 1, total_score := 7, average_rating_tenths := 70 } := by
  refine ⟨by decide, ?_, ?_, by decide, ?_⟩ <;> decide
